import Mathlib

/-!
Verification of the Theo conversational PII tracker core
(`src/Theo/core/session_manager.py`, `src/Theo/core/profile_builder.py`,
`src/Theo/server.py`).

Shallow embedding conventions:
* Python `float` scores are modelled as `ℚ`.
* `datetime.now().isoformat()` and `str(uuid.uuid4())` are side effects of the
  environment; they enter the model as explicit string parameters
  (`created`, `ts`, `fresh`).
* `SessionManager._sessions` (a Python dict keyed by session id) is modelled
  as the partial map `Manager := String → Option ConversationSession`;
  in-place mutation of a session object fetched from the dict is modelled as
  re-storing the updated record under the dict key through which it was
  fetched (`get_or_create_entry` returns that key).
* Python truthiness of an `Optional[str]` (`None` and `""` are falsy) is
  `optTruthy`.
-/

namespace Theo

/-- `PIIEntity` from `session_manager.py`.  The source field `end` is renamed
`stop` because `end` is a Lean keyword; `score` (a Python float) is `ℚ`. -/
structure PIIEntity where
  text : String
  entity_type : String
  score : ℚ
  start : Nat
  stop : Nat
  color : String
  message_index : Nat
deriving DecidableEq, Repr

/-- `Message` from `session_manager.py`. -/
structure Message where
  role : String
  content : String
  timestamp : String
  pii_entities : List PIIEntity
deriving DecidableEq, Repr

/-- `ConversationSession` from `session_manager.py`. -/
structure ConversationSession where
  session_id : String
  messages : List Message
  created_at : String
  last_inference : Option String
  inference_cache_hash : Option String
deriving DecidableEq, Repr

/-- The session table `SessionManager._sessions : Dict[str, ConversationSession]`. -/
def Manager : Type := String → Option ConversationSession

/-- Dict assignment `self._sessions[k] = s`. -/
def mset (m : Manager) (k : String) (s : ConversationSession) : Manager :=
  fun k' => if k' = k then some s else m k'

/-- A fresh `SessionManager` has an empty dict. -/
def emptyManager : Manager := fun _ => none

/-- Python truthiness of an `Optional[str]`: `None` and `""` are falsy. -/
def optTruthy : Option String → Bool
  | some s => s != ""
  | none => false

/-- `ConversationSession(session_id=new_id)` with its default fields
(`created_at` comes from `datetime.now()`, passed in as `created`). -/
def newSession (id created : String) : ConversationSession :=
  { session_id := id, messages := [], created_at := created,
    last_inference := none, inference_cache_hash := none }

/-- `SessionManager.get_or_create_session`, additionally returning the dict
key under which the returned session lives (the Python caller holds an alias
to the dict entry; later in-place mutations are stores through this key).
The Python body is
`if session_id and session_id in self._sessions: return self._sessions[session_id]`,
then `new_id = session_id or str(uuid.uuid4())` and insertion of a fresh
session under `new_id`. -/
def get_or_create_entry (mgr : Manager) (sidOpt : Option String)
    (fresh created : String) : String × ConversationSession × Manager :=
  match sidOpt with
  | some sid =>
    if sid ≠ "" then
      match mgr sid with
      | some s => (sid, s, mgr)
      | none =>
        let s := newSession sid created
        (sid, s, mset mgr sid s)
    else
      let s := newSession fresh created
      (fresh, s, mset mgr fresh s)
  | none =>
    let s := newSession fresh created
    (fresh, s, mset mgr fresh s)

/-- `SessionManager.get_or_create_session` as seen by its callers. -/
def get_or_create_session (mgr : Manager) (sidOpt : Option String)
    (fresh created : String) : ConversationSession × Manager :=
  let e := get_or_create_entry mgr sidOpt fresh created
  (e.2.1, e.2.2)

/-- `SessionManager.add_message`: fetches (or creates) the session, appends a
new `Message`, and clears `inference_cache_hash`.  `ts` stands for
`datetime.now().isoformat()`. -/
def add_message (mgr : Manager) (session_id role content : String)
    (pii_entities : List PIIEntity) (ts fresh created : String) :
    Message × Manager :=
  let e := get_or_create_entry mgr (some session_id) fresh created
  let message : Message :=
    { role := role, content := content, timestamp := ts,
      pii_entities := pii_entities }
  let session' :=
    { e.2.1 with messages := e.2.1.messages ++ [message],
                 inference_cache_hash := none }
  (message, mset e.2.2 e.1 session')

/-- `SessionManager.get_message_count`. -/
def get_message_count (mgr : Manager) (sid : String) : Nat :=
  match mgr sid with
  | some s => s.messages.length
  | none => 0

/-- `SessionManager.get_all_pii_entities`: flattens all messages' entities in
message order, re-deriving each entity's `message_index` from its message's
position. -/
def get_all_pii_entities (mgr : Manager) (sid : String) : List PIIEntity :=
  match mgr sid with
  | none => []
  | some s =>
    (s.messages.enum.map (fun p =>
      p.2.pii_entities.map (fun e => { e with message_index := p.1 }))).flatten

/-- The two assignments of `SessionManager.update_inference` on the session it
looked up. -/
def update_inference (s : ConversationSession) (inference cache_hash : String) :
    ConversationSession :=
  { s with last_inference := some inference,
           inference_cache_hash := some cache_hash }

/-! ## Profile builder (`profile_builder.py`) -/

/-- The `ENTITY_CATEGORIES` table. -/
def ENTITY_CATEGORIES : List (String × String) :=
  [("PERSON", "identity"), ("NRP", "identity"),
   ("PHONE_NUMBER", "contact"), ("EMAIL_ADDRESS", "contact"),
   ("URL", "contact"), ("IP_ADDRESS", "contact"),
   ("LOCATION", "location"),
   ("DATE_TIME", "temporal"),
   ("CREDIT_CARD", "financial"), ("IBAN_CODE", "financial"),
   ("IN_PAN", "financial"), ("US_BANK_NUMBER", "financial"),
   ("CRYPTO", "financial"), ("US_ITIN", "financial"),
   ("IN_AADHAAR", "government_id"), ("IN_PASSPORT", "government_id"),
   ("AU_ABN", "government_id"), ("AU_ACN", "government_id"),
   ("SG_NRIC_FIN", "government_id"), ("AU_TFN", "government_id"),
   ("UK_NINO", "government_id"), ("US_SSN", "government_id"),
   ("US_PASSPORT", "government_id"), ("IN_VOTER", "government_id"),
   ("US_DRIVER_LICENSE", "government_id"),
   ("UK_NHS", "health"), ("AU_MEDICARE", "health"),
   ("MEDICAL_LICENSE", "health"), ("HEALTH_CONDITION", "health"),
   ("MEDICAL_TERM", "health"),
   ("IN_VEHICLE_REGISTRATION", "vehicle"),
   ("EDUCATION_LEVEL", "education"), ("SCHOOL_NAME", "education"),
   ("OCCUPATION", "employment"), ("EMPLOYER", "employment"),
   ("RELATIONSHIP", "relationships"), ("FAMILY_MEMBER", "relationships"),
   ("AGE", "demographics"), ("AGE_GROUP", "demographics")]

/-- The keys of `CATEGORY_INFO` in their (insertion-order preserving)
iteration order; `_initialize_profile` creates exactly these twelve
categories, and both the scoring loop and the hash iterate them in this
order. -/
def categoryKeys : List String :=
  ["identity", "contact", "location", "temporal", "financial",
   "government_id", "health", "vehicle", "education", "employment",
   "relationships", "demographics"]

/-- `ENTITY_CATEGORIES.get(entity_type, "identity")`. -/
def categoryOf (t : String) : String :=
  (ENTITY_CATEGORIES.lookup t).getD "identity"

/-- `entity.text.lower().strip()`: lowercase every character, then drop
leading and trailing whitespace.  (Written over the character list — rather
than through `String.toLower`/`String.trim`, whose position-based string
traversals do not evaluate by kernel reduction — so concrete instances can
be checked by `decide`/`rfl`.) -/
def normalize (t : String) : String :=
  ⟨(((t.data.map Char.toLower).dropWhile Char.isWhitespace).reverse.dropWhile
      Char.isWhitespace).reverse⟩

/-- The `unique_values` set accumulated for category `k` by the
`build_profile` loop (the single pass inserting
`entity.text.lower().strip()` into the entity's category is split here per
category key; `categoryOf` always lands in `categoryKeys`, so the
`if category in self.profile.categories` guard is always true). -/
def uniqueValues (E : List PIIEntity) (k : String) : Finset String :=
  ((E.filter (fun e => categoryOf e.entity_type == k)).map
    (fun e => normalize e.text)).toFinset

/-- The `weights` dict literal of `_calculate_identifiability`. -/
def weightTable : List (String × ℚ) :=
  [("identity", 25), ("government_id", 30), ("contact", 20), ("location", 15),
   ("employment", 10), ("education", 10), ("health", 5), ("demographics", 5),
   ("financial", 5), ("relationships", 3), ("temporal", 2), ("vehicle", 2)]

/-- `weights.get(cat_key, 1)`. -/
def weights (k : String) : ℚ := (weightTable.lookup k).getD 1

/-- One iteration of the scoring loop: `weight * min(unique_count, 3) / 3`
for a non-empty category, nothing otherwise. -/
def categoryContribution (E : List PIIEntity) (k : String) : ℚ :=
  let u := (uniqueValues E k).card
  if 0 < u then weights k * (min u 3 : ℕ) / 3 else 0

/-- `ProfileBuilder._calculate_identifiability`: the loop accumulation is the
sum of per-category contributions over the twelve categories in iteration
order, then the three synergy bonuses, then the `min(100.0, score)` clamp. -/
def identifiability (E : List PIIEntity) : ℚ :=
  let base := (categoryKeys.map (categoryContribution E)).sum
  let has_location := 0 < (uniqueValues E "location").card
  let has_education := 0 < (uniqueValues E "education").card
  let has_employment := 0 < (uniqueValues E "employment").card
  let has_name := 0 < (uniqueValues E "identity").card
  let bonus := (if has_location ∧ has_education then (10 : ℚ) else 0)
             + (if has_location ∧ has_employment then (10 : ℚ) else 0)
             + (if has_name ∧ has_location then (15 : ℚ) else 0)
  min 100 (base + bonus)

/-- `PIIProfile` as far as the verified properties observe it: the
per-category unique-value sets, `total_entities` and the score.  (The
per-category raw entity dicts and the display metadata are presentational
and not modelled.) -/
structure PIIProfile where
  cats : String → Finset String
  total_entities : Nat
  identifiability_score : ℚ

/-- The profile `build_profile` computes from an entity list. -/
def mkProfile (E : List PIIEntity) : PIIProfile :=
  { cats := fun k => uniqueValues E k,
    total_entities := E.length,
    identifiability_score := identifiability E }

/-- `ProfileBuilder.build_profile` including its statefulness: the builder
carries `self.profile` between calls, but the method's first step
`self._initialize_profile()` replaces it wholesale, so the previous state
`prev` is discarded. -/
def build_profile (prev : PIIProfile) (E : List PIIEntity) : PIIProfile :=
  mkProfile E

/-- The canonical content string of `ProfileBuilder.get_profile_hash`:
per category (in iteration order) the lexicographically sorted unique
values, all concatenated and joined with `"|"`.  The Python method returns
the MD5 hexdigest of this string; the digest is a fixed pure function of the
string, so fingerprint equality reduces to equality of this content
string, which the model uses as the fingerprint. -/
def get_profile_hash (E : List PIIEntity) : String :=
  String.intercalate "|"
    ((categoryKeys.map (fun k => (uniqueValues E k).sort (· ≤ ·))).flatten)

/-! ## Inference cache (`server.py` lines 204-227 with
`SessionManager.update_inference`) -/

/-- The cache-check-and-compute core of the `/infer` route
`generate_inference`: compare the freshly computed profile hash with
`session.inference_cache_hash` (a Python `Optional[str] == str` comparison,
false on `None`) and the truthiness of `session.last_inference`; on a hit
return the cached text with `cached=True` leaving the session untouched; on
a miss run `compute_fn` (its outcome is passed in as `computeResult`): an
exception propagates with no write to the session, a result is stored via
`update_inference` and returned with `cached=False`. -/
def getOrCompute (s : ConversationSession) (current_hash : String)
    (computeResult : Except String String) :
    Except String (String × Bool) × ConversationSession :=
  if (s.inference_cache_hash == some current_hash) && optTruthy s.last_inference then
    (Except.ok (s.last_inference.getD "", true), s)
  else
    match computeResult with
    | Except.error e => (Except.error e, s)
    | Except.ok inference =>
      (Except.ok (inference, false), update_inference s inference current_hash)

/-! ## `/message` route (`server.py` `add_message`) -/

/-- The state-affecting part of the `/message` route: read `content` (default
`""`, then `.strip()`) and `role` (default `"user"`), reject empty content,
then reject a role other than `"user"`/`"assistant"` — both rejections
happen before any session is touched — and only then append the message.
`flask_sid` is the cookie-backed `get_session_id()` value, `analyzed` the
entity list the PII analyzer returned for `content`. -/
def add_message_route (mgr : Manager) (flask_sid : String)
    (contentRaw roleRaw : Option String) (analyzed : List PIIEntity)
    (ts fresh created : String) : Except String Message × Manager :=
  let content := (contentRaw.getD "").trim
  let role := roleRaw.getD "user"
  if content = "" then
    (Except.error "Message content is required", mgr)
  else if ¬(role = "user" ∨ role = "assistant") then
    (Except.error "Role must be 'user' or 'assistant'", mgr)
  else
    let r := add_message mgr flask_sid role content analyzed ts fresh created
    (Except.ok r.1, r.2)

/-! ## Reference formula (for the refinement claim about the score) -/

/-- Modelled from the spec: the reference identifiability formula of §4.3 —
per category with `u = |unique_values| > 0` a contribution
`weight * min(u, 3) / 3` with the weights in the order the spec lists them
(identity 25, government-id 30, contact 20, location 15, employment 10,
education 10, health 5, demographics 5, financial 5, relationships 3,
temporal 2, vehicle 2), plus additive synergy bonuses `+10` for
location+education, `+10` for location+employment and `+15` for
identity+location, each triggered by presence (at least one unique value),
the total clamped to at most 100. -/
def referenceScore (E : List PIIEntity) : ℚ :=
  let specWeights : List (String × ℚ) :=
    [("identity", 25), ("government_id", 30), ("contact", 20), ("location", 15),
     ("employment", 10), ("education", 10), ("health", 5), ("demographics", 5),
     ("financial", 5), ("relationships", 3), ("temporal", 2), ("vehicle", 2)]
  let base := (specWeights.map (fun p =>
    if 0 < (uniqueValues E p.1).card then
      p.2 * ((min ((uniqueValues E p.1).card) 3 : ℕ) : ℚ) / 3
    else 0)).sum
  let bonus :=
      (if (uniqueValues E "location").Nonempty ∧ (uniqueValues E "education").Nonempty
        then (10 : ℚ) else 0)
    + (if (uniqueValues E "location").Nonempty ∧ (uniqueValues E "employment").Nonempty
        then (10 : ℚ) else 0)
    + (if (uniqueValues E "identity").Nonempty ∧ (uniqueValues E "location").Nonempty
        then (15 : ℚ) else 0)
  min (base + bonus) 100

/-! ## Concrete sample data used by the witnesses -/

/-- An entity with the given text and type (the remaining fields are
irrelevant to profiles and scores). -/
def sampleEntity (t ty : String) : PIIEntity :=
  { text := t, entity_type := ty, score := 1, start := 0, stop := 0,
    color := "", message_index := 0 }

/-- The spec's scenario: "My name is Alex", "I live in Boston",
"I study at Union College". -/
def scenarioEntities : List PIIEntity :=
  [sampleEntity "Alex" "PERSON", sampleEntity "Boston" "LOCATION",
   sampleEntity "Union College" "SCHOOL_NAME"]

/-- Three distinct values for every one of the twelve categories. -/
def saturatingEntities : List PIIEntity :=
  [sampleEntity "a1" "PERSON", sampleEntity "a2" "PERSON", sampleEntity "a3" "PERSON",
   sampleEntity "b1" "PHONE_NUMBER", sampleEntity "b2" "PHONE_NUMBER", sampleEntity "b3" "PHONE_NUMBER",
   sampleEntity "c1" "LOCATION", sampleEntity "c2" "LOCATION", sampleEntity "c3" "LOCATION",
   sampleEntity "d1" "DATE_TIME", sampleEntity "d2" "DATE_TIME", sampleEntity "d3" "DATE_TIME",
   sampleEntity "e1" "CREDIT_CARD", sampleEntity "e2" "CREDIT_CARD", sampleEntity "e3" "CREDIT_CARD",
   sampleEntity "f1" "US_SSN", sampleEntity "f2" "US_SSN", sampleEntity "f3" "US_SSN",
   sampleEntity "g1" "UK_NHS", sampleEntity "g2" "UK_NHS", sampleEntity "g3" "UK_NHS",
   sampleEntity "h1" "IN_VEHICLE_REGISTRATION", sampleEntity "h2" "IN_VEHICLE_REGISTRATION", sampleEntity "h3" "IN_VEHICLE_REGISTRATION",
   sampleEntity "i1" "SCHOOL_NAME", sampleEntity "i2" "SCHOOL_NAME", sampleEntity "i3" "SCHOOL_NAME",
   sampleEntity "j1" "OCCUPATION", sampleEntity "j2" "OCCUPATION", sampleEntity "j3" "OCCUPATION",
   sampleEntity "k1" "RELATIONSHIP", sampleEntity "k2" "RELATIONSHIP", sampleEntity "k3" "RELATIONSHIP",
   sampleEntity "l1" "AGE", sampleEntity "l2" "AGE", sampleEntity "l3" "AGE"]

/-- A list and a permutation of it. -/
def permListA : List PIIEntity :=
  [sampleEntity "Alex" "PERSON", sampleEntity "Boston" "LOCATION"]

/-- `permListA` with the two entities swapped (and a different
`message_index` on one of them, which the profile ignores). -/
def permListB : List PIIEntity :=
  [sampleEntity "Boston" "LOCATION", sampleEntity "Alex" "PERSON"]

/-- A base list and the same list with a duplicate repeat of the same
normalized text (`" ALEX "` normalizes to `"alex"`). -/
def dupBase : List PIIEntity := [sampleEntity "Alex" "PERSON"]

/-- `dupBase` plus a duplicate whose raw text differs only in case and
surrounding whitespace. -/
def dupExtra : List PIIEntity := dupBase ++ [sampleEntity " ALEX " "PERSON"]

/-- Three distinct identity values. -/
def threeIdentities : List PIIEntity :=
  [sampleEntity "ann" "PERSON", sampleEntity "bob" "PERSON", sampleEntity "cal" "PERSON"]

/-- A fourth, distinct identity value. -/
def fourthIdentity : PIIEntity := sampleEntity "dee" "PERSON"

/-- A session holding no cached inference. -/
def coldSession : ConversationSession :=
  { session_id := "sid-1", messages := [], created_at := "t0",
    last_inference := none, inference_cache_hash := none }

/-- A session holding a cached inference for fingerprint `"fp"`. -/
def warmSession : ConversationSession :=
  { session_id := "sid-2", messages := [], created_at := "t0",
    last_inference := some "cached text", inference_cache_hash := some "fp" }

/-- A one-session manager. -/
def sampleManager : Manager := mset emptyManager "abc" warmSession

/-! ## Helper lemmas -/

lemma toFinset_perm {l l' : List String} (h : l.Perm l') : l.toFinset = l'.toFinset :=
  Finset.ext fun a => by simp only [List.mem_toFinset, h.mem_iff]

lemma uniqueValues_perm {E E' : List PIIEntity} (h : E.Perm E') (k : String) :
    uniqueValues E k = uniqueValues E' k :=
  toFinset_perm ((h.filter _).map _)

lemma getD_lookup_nonneg (l : List (String × ℚ)) (k : String) (d : ℚ)
    (hd : 0 ≤ d) (hl : ∀ p ∈ l, 0 ≤ p.2) : 0 ≤ ((l.lookup k).getD d) := by
  induction l with
  | nil => simpa using hd
  | cons p t ih =>
    obtain ⟨a, b⟩ := p
    rw [List.lookup_cons]
    cases hb : (k == a)
    · exact ih fun q hq => hl q (List.mem_cons_of_mem _ hq)
    · simpa using hl (a, b) (List.mem_cons_self _ _)

lemma weights_nonneg (k : String) : 0 ≤ weights k := by
  refine getD_lookup_nonneg _ _ _ (by norm_num) ?_
  intro p hp
  fin_cases hp <;> norm_num

lemma categoryContribution_nonneg (E : List PIIEntity) (k : String) :
    0 ≤ categoryContribution E k := by
  simp only [categoryContribution]
  split
  · have hw := weights_nonneg k
    positivity
  · exact le_refl 0

lemma identifiability_congr {E E' : List PIIEntity}
    (h : ∀ k, uniqueValues E k = uniqueValues E' k) :
    identifiability E = identifiability E' := by
  have hc : categoryContribution E = categoryContribution E' :=
    funext fun k => by simp only [categoryContribution, h]
  simp only [identifiability, hc, h]

lemma get_profile_hash_congr {E E' : List PIIEntity}
    (h : ∀ k ∈ categoryKeys, uniqueValues E k = uniqueValues E' k) :
    get_profile_hash E = get_profile_hash E' := by
  have hm : categoryKeys.map (fun k => (uniqueValues E k).sort (· ≤ ·))
      = categoryKeys.map (fun k => (uniqueValues E' k).sort (· ≤ ·)) :=
    List.map_congr_left fun k hk => by rw [h k hk]
  rw [get_profile_hash, get_profile_hash, hm]

lemma uniqueValues_append (E F : List PIIEntity) (k : String) :
    uniqueValues (E ++ F) k = uniqueValues E k ∪ uniqueValues F k := by
  simp only [uniqueValues, List.filter_append, List.map_append, List.toFinset_append]

lemma uniqueValues_snoc (E : List PIIEntity) (e : PIIEntity) (k : String) :
    uniqueValues (E ++ [e]) k =
      if categoryOf e.entity_type = k then
        insert (normalize e.text) (uniqueValues E k)
      else uniqueValues E k := by
  rw [uniqueValues_append]
  by_cases h : categoryOf e.entity_type = k
  · rw [if_pos h]
    have h1 : uniqueValues [e] k = {normalize e.text} := by
      simp only [uniqueValues, List.filter]
      rw [show (categoryOf e.entity_type == k) = true from beq_iff_eq.2 h]
      simp
    rw [h1, Finset.union_comm, ← Finset.insert_eq]
  · rw [if_neg h]
    have h1 : uniqueValues [e] k = ∅ := by
      simp only [uniqueValues, List.filter]
      rw [show (categoryOf e.entity_type == k) = false from beq_eq_false_iff_ne.2 h]
      simp
    rw [h1, Finset.union_empty]

lemma contribution_of_three_le (E : List PIIEntity) (k : String)
    (h : 3 ≤ (uniqueValues E k).card) : categoryContribution E k = weights k := by
  have hpos : 0 < (uniqueValues E k).card := lt_of_lt_of_le (by norm_num) h
  simp only [categoryContribution]
  rw [if_pos hpos, Nat.min_eq_right h]
  push_cast
  ring

/-! ## Claims -/

/-- C1: the identifiability score of a built profile equals the spec's
reference formula (per-category diminishing-returns contributions plus the
three synergy bonuses, clamped at 100), and the Alex/Boston/Union-College
scenario scores `25/3 + 15/3 + 10/3 + 10 + 15 = 50/3 + 25`. -/
theorem score_matches_reference_formula :
    (∀ E, identifiability E = referenceScore E)
    ∧ identifiability scenarioEntities = 50 / 3 + 25 := by
  constructor
  · intro E
    simp only [identifiability, referenceScore, categoryKeys, categoryContribution,
      List.map_cons, List.map_nil, List.sum_cons, List.sum_nil, Finset.card_pos,
      show weights "identity" = (25 : ℚ) from rfl,
      show weights "contact" = (20 : ℚ) from rfl,
      show weights "location" = (15 : ℚ) from rfl,
      show weights "temporal" = (2 : ℚ) from rfl,
      show weights "financial" = (5 : ℚ) from rfl,
      show weights "government_id" = (30 : ℚ) from rfl,
      show weights "health" = (5 : ℚ) from rfl,
      show weights "vehicle" = (2 : ℚ) from rfl,
      show weights "education" = (10 : ℚ) from rfl,
      show weights "employment" = (10 : ℚ) from rfl,
      show weights "relationships" = (3 : ℚ) from rfl,
      show weights "demographics" = (5 : ℚ) from rfl]
    rw [min_comm]
    congr 1
    ring
  · have h1 : (uniqueValues scenarioEntities "identity").card = 1 := by decide
    have h2 : (uniqueValues scenarioEntities "contact").card = 0 := by decide
    have h3 : (uniqueValues scenarioEntities "location").card = 1 := by decide
    have h4 : (uniqueValues scenarioEntities "temporal").card = 0 := by decide
    have h5 : (uniqueValues scenarioEntities "financial").card = 0 := by decide
    have h6 : (uniqueValues scenarioEntities "government_id").card = 0 := by decide
    have h7 : (uniqueValues scenarioEntities "health").card = 0 := by decide
    have h8 : (uniqueValues scenarioEntities "vehicle").card = 0 := by decide
    have h9 : (uniqueValues scenarioEntities "education").card = 1 := by decide
    have h10 : (uniqueValues scenarioEntities "employment").card = 0 := by decide
    have h11 : (uniqueValues scenarioEntities "relationships").card = 0 := by decide
    have h12 : (uniqueValues scenarioEntities "demographics").card = 0 := by decide
    simp only [identifiability, categoryKeys, categoryContribution,
      List.map_cons, List.map_nil, List.sum_cons, List.sum_nil,
      h1, h2, h3, h4, h5, h6, h7, h8, h9, h10, h11, h12,
      show weights "identity" = (25 : ℚ) from rfl,
      show weights "location" = (15 : ℚ) from rfl,
      show weights "education" = (10 : ℚ) from rfl]
    norm_num [min_def]

/-- C2: the score always lies in [0, 100]; the empty entity list yields
score 0 with every category's unique-value set empty; and any entity list
with at least 3 unique values in every category yields exactly 100 (the
unclamped total is 167, clamped). -/
theorem score_bounds :
    (∀ E, 0 ≤ identifiability E ∧ identifiability E ≤ 100)
    ∧ identifiability [] = 0
    ∧ (∀ k, uniqueValues [] k = ∅)
    ∧ (∀ E, (∀ k ∈ categoryKeys, 3 ≤ (uniqueValues E k).card) →
        identifiability E = 100) := by
  refine ⟨fun E => ?_, ?_, fun k => rfl, fun E hE => ?_⟩
  · have hbase : 0 ≤ (categoryKeys.map (categoryContribution E)).sum := by
      refine List.sum_nonneg ?_
      intro x hx
      obtain ⟨k, _, rfl⟩ := List.mem_map.1 hx
      exact categoryContribution_nonneg E k
    constructor
    · simp only [identifiability]
      refine le_min (by norm_num) ?_
      have hb : ∀ (c : Prop) [Decidable c] (v : ℚ), 0 ≤ v →
          0 ≤ (if c then v else 0) := by
        intro c _ v hv
        split
        · exact hv
        · exact le_refl 0
      have h1 := hb (0 < (uniqueValues E "location").card ∧
        0 < (uniqueValues E "education").card) (10 : ℚ) (by norm_num)
      have h2 := hb (0 < (uniqueValues E "location").card ∧
        0 < (uniqueValues E "employment").card) (10 : ℚ) (by norm_num)
      have h3 := hb (0 < (uniqueValues E "identity").card ∧
        0 < (uniqueValues E "location").card) (15 : ℚ) (by norm_num)
      exact add_nonneg hbase (add_nonneg (add_nonneg h1 h2) h3)
    · simp only [identifiability]
      exact min_le_left _ _
  · simp only [identifiability, categoryKeys, categoryContribution,
      List.map_cons, List.map_nil, List.sum_cons, List.sum_nil, uniqueValues,
      List.filter_nil, List.map_nil, List.toFinset_nil, Finset.card_empty]
    norm_num
  · have hbase : (categoryKeys.map (categoryContribution E)).sum
        = (categoryKeys.map weights).sum :=
      congrArg List.sum
        (List.map_congr_left fun k hk => contribution_of_three_le E k (hE k hk))
    have hws : (categoryKeys.map weights).sum = 132 := by
      simp only [categoryKeys, List.map_cons, List.map_nil, List.sum_cons,
        List.sum_nil,
        show weights "identity" = (25 : ℚ) from rfl,
        show weights "contact" = (20 : ℚ) from rfl,
        show weights "location" = (15 : ℚ) from rfl,
        show weights "temporal" = (2 : ℚ) from rfl,
        show weights "financial" = (5 : ℚ) from rfl,
        show weights "government_id" = (30 : ℚ) from rfl,
        show weights "health" = (5 : ℚ) from rfl,
        show weights "vehicle" = (2 : ℚ) from rfl,
        show weights "education" = (10 : ℚ) from rfl,
        show weights "employment" = (10 : ℚ) from rfl,
        show weights "relationships" = (3 : ℚ) from rfl,
        show weights "demographics" = (5 : ℚ) from rfl]
      norm_num
    have hpos : ∀ k ∈ categoryKeys, 0 < (uniqueValues E k).card :=
      fun k hk => lt_of_lt_of_le (by norm_num) (hE k hk)
    simp only [identifiability]
    rw [hbase, hws,
      if_pos ⟨hpos "location" (by decide), hpos "education" (by decide)⟩,
      if_pos ⟨hpos "location" (by decide), hpos "employment" (by decide)⟩,
      if_pos ⟨hpos "identity" (by decide), hpos "location" (by decide)⟩]
    norm_num [min_def]

/-- Witness for C2 at a concrete saturating entity list (the hypothesis —
at least 3 unique values in every category — is discharged by `decide`). -/
theorem score_bounds_witness :
    identifiability saturatingEntities = 100 :=
  score_bounds.2.2.2 saturatingEntities (by decide)

/-- C3: `build_profile` is a pure function of its input entity multiset —
a rebuild in any call-history context returns the same profile, and any
permutation of the entity list (whatever the `message_index` values) yields
identical per-category unique-value sets and an identical score. -/
theorem build_profile_pure_and_order_independent
    (prev prev' : PIIProfile) (E E' : List PIIEntity) (h : E.Perm E') :
    build_profile prev E = build_profile prev' E
    ∧ (∀ k, uniqueValues E k = uniqueValues E' k)
    ∧ identifiability E = identifiability E' :=
  ⟨rfl, fun k => uniqueValues_perm h k,
    identifiability_congr fun k => uniqueValues_perm h k⟩

/-- Witness for C3 at a concrete permutation pair. -/
theorem build_profile_pure_and_order_independent_witness :
    permListA.Perm permListB ∧ identifiability permListA = identifiability permListB :=
  have hp : permListA.Perm permListB := by
    unfold permListA permListB
    exact List.Perm.swap _ _ _
  ⟨hp, (build_profile_pure_and_order_independent (mkProfile []) (mkProfile [])
    permListA permListB hp).2.2⟩

/-- C4: the fingerprint is content-addressed — profiles with equal
per-category unique-normalized-value sets fingerprint identically,
whatever the order, repetition count or `message_index` of the raw
entities behind them. -/
theorem fingerprint_content_addressed (E E' : List PIIEntity)
    (h : ∀ k ∈ categoryKeys, uniqueValues E k = uniqueValues E' k) :
    get_profile_hash E = get_profile_hash E' :=
  get_profile_hash_congr h

/-- Witness for C4: a duplicate repeat of the same normalized text
(different case and surrounding whitespace) leaves the fingerprint
unchanged; the equal-unique-value-sets hypothesis is discharged by
`decide`. -/
theorem fingerprint_content_addressed_witness :
    get_profile_hash dupBase = get_profile_hash dupExtra :=
  fingerprint_content_addressed dupBase dupExtra (by decide)

/-- C7: appending an entity whose category already holds at least 3 unique
values does not change the identifiability score. -/
theorem fourth_value_no_score_change (E : List PIIEntity) (e : PIIEntity)
    (h3 : 3 ≤ (uniqueValues E (categoryOf e.entity_type)).card) :
    identifiability (E ++ [e]) = identifiability E := by
  have hmin : ∀ k, min ((uniqueValues (E ++ [e]) k).card) 3
      = min ((uniqueValues E k).card) 3 := by
    intro k
    rw [uniqueValues_snoc]
    split
    next hk =>
      have h3' : 3 ≤ (uniqueValues E k).card := hk ▸ h3
      have hle : (uniqueValues E k).card
          ≤ (insert (normalize e.text) (uniqueValues E k)).card :=
        Finset.card_le_card (Finset.subset_insert _ _)
      rw [Nat.min_eq_right h3', Nat.min_eq_right (le_trans h3' hle)]
    next => rfl
  have hpos : ∀ k, (0 < (uniqueValues (E ++ [e]) k).card)
      ↔ (0 < (uniqueValues E k).card) := by
    intro k
    rw [uniqueValues_snoc]
    split
    next hk =>
      have h3' : 3 ≤ (uniqueValues E k).card := hk ▸ h3
      have hle : (uniqueValues E k).card
          ≤ (insert (normalize e.text) (uniqueValues E k)).card :=
        Finset.card_le_card (Finset.subset_insert _ _)
      constructor
      · intro _
        exact lt_of_lt_of_le (by norm_num) h3'
      · intro _
        exact lt_of_lt_of_le (lt_of_lt_of_le (by norm_num) h3') hle
    next => exact Iff.rfl
  have hcontrib : ∀ k, categoryContribution (E ++ [e]) k = categoryContribution E k := by
    intro k
    simp only [categoryContribution]
    rw [hmin k]
    exact if_congr (hpos k) rfl rfl
  have hbase : (categoryKeys.map (categoryContribution (E ++ [e]))).sum
      = (categoryKeys.map (categoryContribution E)).sum :=
    congrArg List.sum (List.map_congr_left fun k _ => hcontrib k)
  simp only [identifiability]
  rw [hbase, if_congr (and_congr (hpos "location") (hpos "education")) rfl rfl,
      if_congr (and_congr (hpos "location") (hpos "employment")) rfl rfl,
      if_congr (and_congr (hpos "identity") (hpos "location")) rfl rfl]

/-- Witness for C7: a fourth distinct identity value leaves the score
unchanged. -/
theorem fourth_value_no_score_change_witness :
    3 ≤ (uniqueValues threeIdentities (categoryOf fourthIdentity.entity_type)).card
    ∧ identifiability (threeIdentities ++ [fourthIdentity])
        = identifiability threeIdentities :=
  ⟨by decide, fourth_value_no_score_change threeIdentities fourthIdentity (by decide)⟩

/-- C5: `getOrCompute` returns the cached explanation with `wasCached = true`
exactly when the freshly computed fingerprint equals the stored
`inference_cache_hash` and a cached explanation is present (Python-truthy);
in that case the session is untouched.  Otherwise the compute outcome
decides: a result is returned with `wasCached = false` and both the new
explanation and the new fingerprint are stored; an exception propagates and
neither field of the session is modified. -/
theorem getOrCompute_cache_spec (s : ConversationSession) (fp : String)
    (r : Except String String) :
    ((∃ t, (getOrCompute s fp r).1 = Except.ok (t, true)) ↔
      (s.inference_cache_hash = some fp ∧ optTruthy s.last_inference = true))
    ∧ (s.inference_cache_hash = some fp → optTruthy s.last_inference = true →
        getOrCompute s fp r = (Except.ok (s.last_inference.getD "", true), s))
    ∧ (¬(s.inference_cache_hash = some fp ∧ optTruthy s.last_inference = true) →
        (∀ t, r = Except.ok t →
            (getOrCompute s fp r).1 = Except.ok (t, false)
            ∧ ((getOrCompute s fp r).2).last_inference = some t
            ∧ ((getOrCompute s fp r).2).inference_cache_hash = some fp)
        ∧ (∀ e, r = Except.error e → getOrCompute s fp r = (Except.error e, s))) := by
  have hbiff : (((s.inference_cache_hash == some fp) && optTruthy s.last_inference) = true)
      ↔ (s.inference_cache_hash = some fp ∧ optTruthy s.last_inference = true) := by
    simp [Bool.and_eq_true, beq_iff_eq]
  by_cases hc : s.inference_cache_hash = some fp ∧ optTruthy s.last_inference = true
  · have hb := hbiff.2 hc
    refine ⟨?_, fun _ _ => by simp [getOrCompute, hb], fun hn => absurd hc hn⟩
    constructor
    · intro _
      exact hc
    · intro _
      exact ⟨s.last_inference.getD "", by simp [getOrCompute, hb]⟩
  · have hb : ((s.inference_cache_hash == some fp) && optTruthy s.last_inference) = false := by
      cases hbool : ((s.inference_cache_hash == some fp) && optTruthy s.last_inference)
      · rfl
      · exact absurd (hbiff.1 hbool) hc
    refine ⟨⟨?_, fun hcontr => absurd hcontr hc⟩,
      fun h1 h2 => absurd ⟨h1, h2⟩ hc, fun _ => ⟨fun t ht => ?_, fun e he => ?_⟩⟩
    · rintro ⟨t, ht⟩
      exfalso
      cases r with
      | error e => simp [getOrCompute, hb] at ht
      | ok v => simp [getOrCompute, hb] at ht
    · subst ht
      refine ⟨by simp [getOrCompute, hb], ?_, ?_⟩ <;>
        simp [getOrCompute, hb, update_inference]
    · subst he
      simp [getOrCompute, hb]

/-- Witness for C5: on a session with no stored fingerprint the compute
path runs, stores the result and fingerprint, and reports
`wasCached = false`. -/
theorem getOrCompute_cache_spec_witness :
    ¬(coldSession.inference_cache_hash = some "fp"
        ∧ optTruthy coldSession.last_inference = true)
    ∧ ((getOrCompute coldSession "fp" (Except.ok "fresh text")).1
          = Except.ok ("fresh text", false)
        ∧ ((getOrCompute coldSession "fp" (Except.ok "fresh text")).2).last_inference
          = some "fresh text"
        ∧ ((getOrCompute coldSession "fp" (Except.ok "fresh text")).2).inference_cache_hash
          = some "fp") :=
  have hn : ¬(coldSession.inference_cache_hash = some "fp"
      ∧ optTruthy coldSession.last_inference = true) := by decide
  ⟨hn, ((getOrCompute_cache_spec coldSession "fp" (Except.ok "fresh text")).2.2 hn).1
    "fresh text" rfl⟩

/-- C6: `add_message` clears the stored fingerprint (`inference_cache_hash`
becomes `None`), so immediately after an append no `getOrCompute` can
answer from the cache via a fingerprint match. -/
theorem append_invalidates_cache (mgr : Manager) (sid role content : String)
    (ents : List PIIEntity) (ts fresh created : String) (hsid : sid ≠ "") :
    ∃ s', (add_message mgr sid role content ents ts fresh created).2 sid = some s'
      ∧ s'.inference_cache_hash = none
      ∧ ∀ fp r t, (getOrCompute s' fp r).1 ≠ Except.ok (t, true) := by
  have hkey : (get_or_create_entry mgr (some sid) fresh created).1 = sid := by
    simp only [get_or_create_entry]
    rw [if_pos hsid]
    cases mgr sid <;> rfl
  refine ⟨{ (get_or_create_entry mgr (some sid) fresh created).2.1 with
      messages := (get_or_create_entry mgr (some sid) fresh created).2.1.messages
        ++ [{ role := role, content := content, timestamp := ts,
              pii_entities := ents }],
      inference_cache_hash := none }, ?_, rfl, ?_⟩
  · simp [add_message, mset, hkey]
  · intro fp r t
    cases r <;> simp [getOrCompute, optTruthy]

/-- Witness for C6 on a concrete manager holding a warm cached session. -/
theorem append_invalidates_cache_witness :
    ("abc" ≠ "")
    ∧ ∃ s', (add_message sampleManager "abc" "user" "hi" [] "t1" "f" "t0").2 "abc"
          = some s'
        ∧ s'.inference_cache_hash = none
        ∧ ∀ fp r t, (getOrCompute s' fp r).1 ≠ Except.ok (t, true) :=
  ⟨by decide,
    append_invalidates_cache sampleManager "abc" "user" "hi" [] "t1" "f" "t0" (by decide)⟩

/-- C8 as stated is false on the code: for an unknown non-empty session id,
`get_or_create_session` creates the new session under the caller-supplied id
(`new_id = session_id or str(uuid.uuid4())` keeps a truthy `session_id`),
not under a freshly generated token. -/
theorem get_or_create_unknown_id_counterexample :
    (get_or_create_session emptyManager (some "abc")
        "11111111-1111-1111-1111-111111111111" "t0").1.session_id = "abc"
    ∧ "abc" ≠ "11111111-1111-1111-1111-111111111111" :=
  ⟨rfl, by decide⟩

/-- C8 amended: `get_or_create_session` returns the existing session
unchanged when the id is known (and non-empty); for an unknown non-empty id
it creates the new session under the caller-supplied id; only for an absent
or empty id does it use the freshly generated token. -/
theorem get_or_create_session_spec (mgr : Manager) (sid fresh created : String) :
    (∀ s, sid ≠ "" → mgr sid = some s →
        get_or_create_session mgr (some sid) fresh created = (s, mgr))
    ∧ (sid ≠ "" → mgr sid = none →
        (get_or_create_session mgr (some sid) fresh created).1.session_id = sid)
    ∧ (get_or_create_session mgr none fresh created).1.session_id = fresh
    ∧ (get_or_create_session mgr (some "") fresh created).1.session_id = fresh := by
  refine ⟨fun s hs hm => ?_, fun hs hm => ?_, rfl, ?_⟩
  · simp [get_or_create_session, get_or_create_entry, hs, hm]
  · simp [get_or_create_session, get_or_create_entry, hs, hm, newSession]
  · simp [get_or_create_session, get_or_create_entry, newSession]

/-- Witness for C8 (amended): a known id returns the stored session and
leaves the manager unchanged. -/
theorem get_or_create_session_spec_witness :
    ("abc" ≠ "" ∧ sampleManager "abc" = some warmSession)
    ∧ get_or_create_session sampleManager (some "abc") "f" "t0"
        = (warmSession, sampleManager) :=
  ⟨⟨by decide, rfl⟩,
    (get_or_create_session_spec sampleManager "abc" "f" "t0").1 warmSession
      (by decide) rfl⟩

/-- C9: the `/message` route rejects a role other than `"user"` or
`"assistant"` with an error, before any session state is touched — the
session table is unchanged, so no message is created and every session's
message count and cached fingerprint are unchanged. -/
theorem route_rejects_invalid_role (mgr : Manager) (flask_sid : String)
    (contentRaw : Option String) (role : String) (analyzed : List PIIEntity)
    (ts fresh created : String) (h1 : role ≠ "user") (h2 : role ≠ "assistant") :
    (∃ e, (add_message_route mgr flask_sid contentRaw (some role) analyzed
        ts fresh created).1 = Except.error e)
    ∧ (add_message_route mgr flask_sid contentRaw (some role) analyzed
        ts fresh created).2 = mgr
    ∧ ∀ sid, get_message_count ((add_message_route mgr flask_sid contentRaw
          (some role) analyzed ts fresh created).2) sid
        = get_message_count mgr sid := by
  have hrole : ¬(role = "user" ∨ role = "assistant") := by
    rintro (h | h)
    · exact h1 h
    · exact h2 h
  by_cases hcontent : (contentRaw.getD "").trim = ""
  · exact ⟨⟨"Message content is required",
      by simp [add_message_route, hcontent]⟩,
      by simp [add_message_route, hcontent], fun sid => by
        simp [add_message_route, hcontent]⟩
  · exact ⟨⟨"Role must be 'user' or 'assistant'",
      by simp [add_message_route, hcontent, hrole]⟩,
      by simp [add_message_route, hcontent, hrole], fun sid => by
        simp [add_message_route, hcontent, hrole]⟩

/-- Witness for C9: role `"robot"` is rejected and the manager is
unchanged. -/
theorem route_rejects_invalid_role_witness :
    ("robot" ≠ "user" ∧ "robot" ≠ "assistant")
    ∧ (∃ e, (add_message_route sampleManager "abc" (some "hello") (some "robot")
        [] "t1" "f" "t0").1 = Except.error e)
    ∧ (add_message_route sampleManager "abc" (some "hello") (some "robot")
        [] "t1" "f" "t0").2 = sampleManager :=
  have h := route_rejects_invalid_role sampleManager "abc" (some "hello") "robot"
    [] "t1" "f" "t0" (by decide) (by decide)
  ⟨⟨by decide, by decide⟩, h.1, h.2.1⟩

/-- C10: a successful `add_message` on an existing session appends exactly
one new message at the end, retains all other fields of the session
(`session_id`, `created_at`, the stored `last_inference` text) and all
previously stored messages, clears only `inference_cache_hash`, and leaves
every other session untouched. -/
theorem add_message_frame (mgr : Manager) (sid : String) (s : ConversationSession)
    (role content : String) (ents : List PIIEntity) (ts fresh created : String)
    (hsid : sid ≠ "") (hs : mgr sid = some s) :
    (add_message mgr sid role content ents ts fresh created).1
      = { role := role, content := content, timestamp := ts, pii_entities := ents }
    ∧ (∃ s', (add_message mgr sid role content ents ts fresh created).2 sid = some s'
        ∧ s'.messages = s.messages
            ++ [(add_message mgr sid role content ents ts fresh created).1]
        ∧ s'.session_id = s.session_id
        ∧ s'.created_at = s.created_at
        ∧ s'.last_inference = s.last_inference
        ∧ s'.inference_cache_hash = none)
    ∧ ∀ k, k ≠ sid →
        (add_message mgr sid role content ents ts fresh created).2 k = mgr k := by
  have hentry : get_or_create_entry mgr (some sid) fresh created = (sid, s, mgr) := by
    simp [get_or_create_entry, hsid, hs]
  refine ⟨rfl, ⟨{ s with
      messages := s.messages ++ [Message.mk role content ts ents],
      inference_cache_hash := none }, ?_, rfl, rfl, rfl, rfl, rfl⟩, fun k hk => ?_⟩
  · simp [add_message, hentry, mset]
  · simp [add_message, hentry, mset, hk]

/-- Witness for C10 on a concrete manager and session. -/
theorem add_message_frame_witness :
    ("abc" ≠ "" ∧ sampleManager "abc" = some warmSession)
    ∧ (add_message sampleManager "abc" "user" "hello" [] "t1" "f" "t0").1
        = { role := "user", content := "hello", timestamp := "t1",
            pii_entities := [] } :=
  ⟨⟨by decide, rfl⟩,
    (add_message_frame sampleManager "abc" warmSession "user" "hello" []
      "t1" "f" "t0" (by decide) rfl).1⟩

end Theo
